import Mathlib

/-!
# Shallow embedding of the miniflux-v2-sqlite entry storage engine

This file embeds the entry reconciliation, cleanup, pagination and bulk
status operations of `internal/storage/entry.go` and
`internal/storage/entry_pagination_builder.go`, together with the relevant
columns of the SQLite schema (`internal/database/migrations.go`), as pure
Lean functions, and proves the specified properties about them.

Modelling conventions:
* the `entries` table is a `List Entry` inside a `DB` value; `feeds` and
  `categories` are lists as well; `AUTOINCREMENT` is an explicit
  `nextEntryID` counter;
* SQL timestamps are integers; `datetime('now')` is an explicit `now`
  parameter and `datetime('now', '-N days')` is `now - N * 86400`;
* `tags` is kept as a list of strings; where the Go code compares the
  serialized JSON text (`LIKE` on the `tags` column) the model serializes
  with `tagsJSON`;
* each SQL statement becomes a function from `DB` to `DB` (plus result
  data); statements that inspect `RowsAffected` return it or the error the
  Go code derives from it;
* enclosure handling (`createEnclosure` / `updateEnclosures`) is outside
  the embedded fragment: no verified property mentions enclosures.
-/

set_option maxHeartbeats 1600000

namespace Miniflux

/-- Status constants of `model.EntryStatus*`; the schema `CHECK` constraint
pins exactly these three values. -/
def EntryStatusUnread : String := "unread"

/-- Status constant `model.EntryStatusRead`. -/
def EntryStatusRead : String := "read"

/-- Status constant `model.EntryStatusRemoved`. -/
def EntryStatusRemoved : String := "removed"

/-- One row of the `entries` table (columns of the schema in
`internal/database/migrations.go`, including the columns added by later
migrations: `starred`, `comments_url`, `changed_at`, `share_code`,
`reading_time`, `created_at`, `tags`).  `publishedAt` is the
`published_at` column (the candidate's `entry.Date`). -/
structure Entry where
  id : Int
  userID : Int
  feedID : Int
  hash : String
  title : String
  url : String
  commentsURL : String
  content : String
  author : String
  readingTime : Int
  tags : List String
  status : String
  starred : Bool
  shareCode : String
  publishedAt : Int
  createdAt : Int
  changedAt : Int
  deriving Repr, DecidableEq

/-- The columns of the `feeds` table the embedded queries touch. -/
structure Feed where
  id : Int
  userID : Int
  categoryID : Int
  hideGlobally : Bool
  deriving Repr, DecidableEq

/-- The columns of the `categories` table the embedded queries touch. -/
structure Category where
  id : Int
  userID : Int
  hideGlobally : Bool
  deriving Repr, DecidableEq

/-- The database state: the three tables plus the `AUTOINCREMENT` counter
for `entries.id`. -/
structure DB where
  entries : List Entry
  feeds : List Feed
  categories : List Category
  nextEntryID : Int
  deriving Repr, DecidableEq

/-- The distinct error values the embedded storage functions produce.
`nothingUpdated` is `errors.New("store: nothing has been updated")`;
`noEntryFoundToUpdate` is the `store: no entry found to update` error of
`updateEntry`; `notFound` stands for the NotFound taxonomy entry (never
produced by the operations embedded here, which signal absence with `none`
or zero affected rows). -/
inductive StoreError where
  | nothingUpdated
  | noEntryFoundToUpdate
  | notFound
  deriving Repr, DecidableEq

/-! ## Reconciler and reaper (`internal/storage/entry.go`) -/

/-- `entryExists`: `SELECT true FROM entries WHERE feed_id=? AND hash=?
LIMIT 1` — the row lookup does not filter on `user_id`. -/
def entryExists (entry : Entry) (db : DB) : Bool :=
  db.entries.any (fun e => e.feedID == entry.feedID && e.hash == entry.hash)

/-- `createEntry`: INSERT of the candidate.  The inserted row takes the
explicitly bound columns from the candidate, `changed_at=datetime('now')`
from the statement, and `status='unread'`, `starred=0`, `share_code=''`,
`created_at=datetime('now')` from the column defaults.  The Go code then
mutates the candidate struct (`ID`, `Status`, `CreatedAt`, `ChangedAt`)
which is what `RefreshFeedEntries` appends to `newEntries`; the function
returns the new database and that mutated struct. -/
def createEntry (now : Int) (entry : Entry) (db : DB) : DB × Entry :=
  let row : Entry :=
    { entry with
      id := db.nextEntryID
      status := EntryStatusUnread
      starred := false
      shareCode := ""
      createdAt := now
      changedAt := now }
  let retEntry : Entry :=
    { entry with
      id := db.nextEntryID
      status := EntryStatusUnread
      createdAt := now
      changedAt := now }
  ({ db with entries := db.entries ++ [row], nextEntryID := db.nextEntryID + 1 },
   retEntry)

/-- `updateEntry`: `UPDATE entries SET title=?, url=?, comments_url=?,
content=?, author=?, reading_time=?, tags=? WHERE user_id=? AND feed_id=?
AND hash=?`.  Note the statement does not touch `status`, `published_at`,
`changed_at`, `starred`, `share_code` or `created_at`.  When
`RowsAffected` is zero the Go code returns the
`store: no entry found to update` error (and the transaction is rolled
back by the caller). -/
def updateEntry (entry : Entry) (db : DB) : Except StoreError DB :=
  let rowMatches : Entry → Bool := fun e =>
    e.userID == entry.userID && e.feedID == entry.feedID && e.hash == entry.hash
  let rowsAffected := (db.entries.filter rowMatches).length
  if rowsAffected == 0 then
    Except.error StoreError.noEntryFoundToUpdate
  else
    Except.ok
      { db with
        entries := db.entries.map (fun e =>
          if rowMatches e then
            { e with
              title := entry.title
              url := entry.url
              commentsURL := entry.commentsURL
              content := entry.content
              author := entry.author
              readingTime := entry.readingTime
              tags := entry.tags }
          else e) }

/-- The loop body of `RefreshFeedEntries` stamps the candidate with the
caller's user and feed before processing. -/
def prepCandidate (userID feedID : Int) (e : Entry) : Entry :=
  { e with userID := userID, feedID := feedID }

/-- One iteration of the `RefreshFeedEntries` loop (one short transaction):
check existence, then create, update, or skip.  Returns the committed
database and the struct appended to `newEntries` when a row was created;
an error means the transaction was rolled back (database unchanged). -/
def processEntry (now : Int) (updateExistingEntries : Bool) (entry : Entry)
    (db : DB) : Except StoreError (DB × Option Entry) :=
  if entryExists entry db then
    if updateExistingEntries then
      match updateEntry entry db with
      | Except.error e => Except.error e
      | Except.ok db2 => Except.ok (db2, none)
    else
      Except.ok (db, none)
  else
    Except.ok ((createEntry now entry db).1, some (createEntry now entry db).2)

/-- The candidate loop of `RefreshFeedEntries`: candidates are processed in
order, each in its own transaction; the first error aborts the loop,
leaving the already committed candidates in place.  Returns the final
database, either the created entries (in order) or the error, and the
hashes of the successfully processed candidates. -/
def refreshLoop (now userID feedID : Int) (updateExistingEntries : Bool)
    (db : DB) : List Entry → DB × Except StoreError (List Entry) × List String
  | [] => (db, Except.ok [], [])
  | e :: rest =>
    let entry := prepCandidate userID feedID e
    match processEntry now updateExistingEntries entry db with
    | Except.error err => (db, Except.error err, [])
    | Except.ok (db2, created) =>
      match refreshLoop now userID feedID updateExistingEntries db2 rest with
      | (db3, Except.error err, hs) => (db3, Except.error err, hs)
      | (db3, Except.ok news, hs) =>
        (db3, Except.ok (created.toList ++ news), entry.hash :: hs)

deriving instance DecidableEq for Except

/-- The outcome of `RefreshFeedEntries`: the database after the loop, the
returned `(newEntries, err)` pair, and the hash list handed to the
detached `cleanupEntries` goroutine (`none` when the loop aborted, since
the goroutine is only reached on the success path). -/
structure RefreshResult where
  db : DB
  result : Except StoreError (List Entry)
  scheduledCleanup : Option (List String)
  deriving Repr, DecidableEq

/-- `RefreshFeedEntries(userID, feedID, entries, updateExistingEntries)`. -/
def RefreshFeedEntries (now userID feedID : Int) (entries : List Entry)
    (updateExistingEntries : Bool) (db : DB) : RefreshResult :=
  match refreshLoop now userID feedID updateExistingEntries db entries with
  | (db2, Except.ok newEntries, hashes) =>
    { db := db2, result := Except.ok newEntries, scheduledCleanup := some hashes }
  | (db2, Except.error err, _) =>
    { db := db2, result := Except.error err, scheduledCleanup := none }

/-- `cleanupEntries(feedID, entryHashes)`: an empty hash list returns
immediately; otherwise `DELETE FROM entries WHERE feed_id=? AND status=?
AND hash NOT IN (...)` with `status = removed`. -/
def cleanupEntries (feedID : Int) (entryHashes : List String) (db : DB) : DB :=
  if entryHashes.length == 0 then db
  else
    { db with
      entries := db.entries.filter (fun e =>
        !(e.feedID == feedID && e.status == EntryStatusRemoved &&
          !(entryHashes.contains e.hash))) }

/-- Running the reaper sweep scheduled by a refresh (the body of the
goroutine `RefreshFeedEntries` spawns); a refresh that aborted scheduled
no sweep. -/
def runScheduledCleanup (feedID : Int) (r : RefreshResult) : DB :=
  match r.scheduledCleanup with
  | some hashes => cleanupEntries feedID hashes r.db
  | none => r.db

/-- Number of stored rows for a `(feed_id, hash)` dedup key (the schema has
`UNIQUE (feed_id, hash)`, so a well-formed database has at most one). -/
def countEntriesByKey (feedID : Int) (hash : String) (db : DB) : Nat :=
  (db.entries.filter (fun e => e.feedID == feedID && e.hash == hash)).length

/-! ## Bulk status operations (`internal/storage/entry.go`) -/

/-- Insertion step of the model of SQL `ORDER BY created_at ASC` (ties are
left in list order; SQLite leaves tie order unspecified). -/
def insertByCreatedAt (e : Entry) : List Entry → List Entry
  | [] => [e]
  | x :: xs =>
    if e.createdAt < x.createdAt then e :: x :: xs
    else x :: insertByCreatedAt e xs

/-- Model of SQL `ORDER BY created_at ASC` as a stable insertion sort. -/
def sortByCreatedAt : List Entry → List Entry
  | [] => []
  | x :: xs => insertByCreatedAt x (sortByCreatedAt xs)

/-- The inner `SELECT id FROM entries WHERE status=? AND starred = 0 AND
share_code='' AND created_at < datetime('now', '-days days') ORDER BY
created_at ASC LIMIT limit` of `ArchiveEntries`. -/
def archiveSelectedIDs (now : Int) (status : String) (days limit : Int)
    (db : DB) : List Int :=
  ((sortByCreatedAt (db.entries.filter (fun e =>
      e.status == status && e.starred == false && e.shareCode == "" &&
      e.createdAt < now - days * 86400))).take limit.toNat).map Entry.id

/-- `ArchiveEntries(status, days, limit)`: `days < 0 || limit <= 0` is a
no-op; otherwise `UPDATE entries SET status='removed' WHERE id IN
(archiveSelectedIDs)`, returning `RowsAffected`.  There is no `user_id`
predicate anywhere in the statement. -/
def ArchiveEntries (now : Int) (status : String) (days limit : Int)
    (db : DB) : DB × Nat :=
  if days < 0 || limit ≤ 0 then (db, 0)
  else
    ({ db with
       entries := db.entries.map (fun e =>
         if (archiveSelectedIDs now status days limit db).contains e.id then
           { e with status := EntryStatusRemoved }
         else e) },
     (db.entries.filter (fun e =>
       (archiveSelectedIDs now status days limit db).contains e.id)).length)

/-- `SetEntriesStatus(userID, entryIDs, status)`: no-op on empty id list,
else `UPDATE entries SET status=?, changed_at=datetime('now') WHERE
user_id=? AND id IN (...)`. -/
def SetEntriesStatus (now : Int) (userID : Int) (entryIDs : List Int)
    (status : String) (db : DB) : DB :=
  if entryIDs.length == 0 then db
  else
    { db with
      entries := db.entries.map (fun e =>
        if e.userID == userID && entryIDs.contains e.id then
          { e with status := status, changedAt := now }
        else e) }

/-- `SetEntriesBookmarkedState(userID, entryIDs, starred)`: no-op on empty
id list, else `UPDATE entries SET starred=?, changed_at=datetime('now')
WHERE user_id=? AND id IN (...)`; a zero `RowsAffected` yields the
`store: nothing has been updated` error. -/
def SetEntriesBookmarkedState (now : Int) (userID : Int) (entryIDs : List Int)
    (starred : Bool) (db : DB) : DB × Except StoreError Unit :=
  if entryIDs.length == 0 then (db, Except.ok ())
  else
    ({ db with
       entries := db.entries.map (fun e =>
         if e.userID == userID && entryIDs.contains e.id then
           { e with starred := starred, changedAt := now }
         else e) },
     if (db.entries.filter
         (fun e => e.userID == userID && entryIDs.contains e.id)).length == 0 then
       Except.error StoreError.nothingUpdated
     else Except.ok ())

/-- `ToggleBookmark(userID, entryID)`: `UPDATE entries SET starred = CASE
WHEN starred = 1 THEN 0 ELSE 1 END, changed_at=datetime('now') WHERE
user_id=? AND id=?`; a zero `RowsAffected` yields the
`store: nothing has been updated` error. -/
def ToggleBookmark (now : Int) (userID entryID : Int) (db : DB) :
    DB × Except StoreError Unit :=
  ({ db with
     entries := db.entries.map (fun e =>
       if e.userID == userID && e.id == entryID then
         { e with starred := !e.starred, changedAt := now }
       else e) },
   if (db.entries.filter
       (fun e => e.userID == userID && e.id == entryID)).length == 0 then
     Except.error StoreError.nothingUpdated
   else Except.ok ())

/-- `FlushHistory(userID)`: `UPDATE entries SET status='removed',
changed_at=datetime('now') WHERE user_id=? AND status='read' AND
starred = 0 AND share_code=''`. -/
def FlushHistory (now : Int) (userID : Int) (db : DB) : DB :=
  { db with
    entries := db.entries.map (fun e =>
      if e.userID == userID && e.status == EntryStatusRead &&
         e.starred == false && e.shareCode == "" then
        { e with status := EntryStatusRemoved, changedAt := now }
      else e) }

/-- `MarkAllAsRead(userID)`: `UPDATE entries SET status='read',
changed_at=datetime('now') WHERE user_id=? AND status='unread'`. -/
def MarkAllAsRead (now : Int) (userID : Int) (db : DB) : DB :=
  { db with
    entries := db.entries.map (fun e =>
      if e.userID == userID && e.status == EntryStatusUnread then
        { e with status := EntryStatusRead, changedAt := now }
      else e) }

/-- `MarkAllAsReadBeforeDate(userID, before)`: as `MarkAllAsRead`, further
bounded by `published_at < before`. -/
def MarkAllAsReadBeforeDate (now : Int) (userID : Int) (before : Int)
    (db : DB) : DB :=
  { db with
    entries := db.entries.map (fun e =>
      if e.userID == userID && e.status == EntryStatusUnread &&
         e.publishedAt < before then
        { e with status := EntryStatusRead, changedAt := now }
      else e) }

/-- `MarkGloballyVisibleFeedsAsRead(userID)`: the update is additionally
bounded by `feed_id IN (SELECT id FROM feeds WHERE user_id=? AND
hide_globally=0)`. -/
def MarkGloballyVisibleFeedsAsRead (now : Int) (userID : Int) (db : DB) : DB :=
  let visibleFeedIDs :=
    (db.feeds.filter (fun f => f.userID == userID && f.hideGlobally == false)).map Feed.id
  { db with
    entries := db.entries.map (fun e =>
      if visibleFeedIDs.contains e.feedID && e.userID == userID &&
         e.status == EntryStatusUnread then
        { e with status := EntryStatusRead, changedAt := now }
      else e) }

/-- `MarkFeedAsRead(userID, feedID, before)`. -/
def MarkFeedAsRead (now : Int) (userID feedID : Int) (before : Int)
    (db : DB) : DB :=
  { db with
    entries := db.entries.map (fun e =>
      if e.userID == userID && e.feedID == feedID &&
         e.status == EntryStatusUnread && e.publishedAt < before then
        { e with status := EntryStatusRead, changedAt := now }
      else e) }

/-- `MarkCategoryAsRead(userID, categoryID, before)`: bounded by `feed_id
IN (SELECT id FROM feeds WHERE user_id=? AND category_id=?)`. -/
def MarkCategoryAsRead (now : Int) (userID categoryID : Int) (before : Int)
    (db : DB) : DB :=
  let categoryFeedIDs :=
    (db.feeds.filter (fun f => f.userID == userID && f.categoryID == categoryID)).map Feed.id
  { db with
    entries := db.entries.map (fun e =>
      if categoryFeedIDs.contains e.feedID && e.userID == userID &&
         e.status == EntryStatusUnread && e.publishedAt < before then
        { e with status := EntryStatusRead, changedAt := now }
      else e) }

/-! ## Pagination navigator (`internal/storage/entry_pagination_builder.go`) -/

/-- One accumulated condition of `EntryPaginationBuilder` (the Go builder
holds SQL fragments plus bound arguments; each `With*` method appends one
of these, and the constructor seeds `userEq` and `statusNe`).  The
`categoryNotHidden` / `feedNotHidden` pair is appended by
`WithGloballyVisible`. -/
inductive PagCond where
  | searchQuery (query : String)
  | starredOnly
  | feedEq (feedID : Int)
  | categoryEq (categoryID : Int)
  | statusEq (status : String)
  | tagLike (tag : String)
  | categoryNotHidden
  | feedNotHidden
  | userEq (userID : Int)
  | statusNe (status : String)
  deriving Repr, DecidableEq

/-- Whether `pat` is an initial segment of `s` (character lists). -/
def charsStartWith : List Char → List Char → Bool
  | [], _ => true
  | _ :: _, [] => false
  | p :: ps, c :: cs => p == c && charsStartWith ps cs

/-- Whether `pat` occurs contiguously inside `s` (character lists). -/
def charsContain (pat : List Char) : List Char → Bool
  | [] => charsStartWith pat []
  | c :: cs => charsStartWith pat (c :: cs) || charsContain pat cs

/-- SQLite `column LIKE '%pat%'` (case-insensitive containment). -/
def likeContains (pat s : String) : Bool :=
  charsContain pat.toLower.data s.toLower.data

/-- JSON serialization of the `tags` column (`json.Marshal` of a string
slice, escaping aside), against which `WithTags` matches with `LIKE`. -/
def tagsJSON (tags : List String) : String :=
  "[" ++ String.intercalate "," (tags.map (fun t => "\"" ++ t ++ "\"")) ++ "]"

/-- Evaluate one condition against a joined row (`entries AS e JOIN feeds
AS f ON f.id=e.feed_id JOIN categories c ON c.id = f.category_id`). -/
def evalCond (e : Entry) (f : Feed) (c : Category) : PagCond → Bool
  | PagCond.searchQuery q => likeContains q e.title || likeContains q e.content
  | PagCond.starredOnly => e.starred
  | PagCond.feedEq feedID => e.feedID == feedID
  | PagCond.categoryEq categoryID => f.categoryID == categoryID
  | PagCond.statusEq status => e.status == status
  | PagCond.tagLike tag => likeContains ("\"" ++ tag.toLower ++ "\"") (tagsJSON e.tags)
  | PagCond.categoryNotHidden => c.hideGlobally == false
  | PagCond.feedNotHidden => f.hideGlobally == false
  | PagCond.userEq userID => e.userID == userID
  | PagCond.statusNe status => e.status != status

/-- The pagination builder state: accumulated conditions, the anchor entry
id, the ordering column name (callers pass `published_at` or
`created_at`), and the direction string. -/
structure EntryPaginationBuilder where
  conditions : List PagCond
  entryID : Int
  order : String
  direction : String
  deriving Repr, DecidableEq

/-- `NewEntryPaginationBuilder(store, userID, entryID, order, direction)`
seeds the conditions `e.user_id = ?` and `e.status <> 'removed'`. -/
def NewEntryPaginationBuilder (userID entryID : Int) (order direction : String) :
    EntryPaginationBuilder :=
  { conditions := [PagCond.userEq userID, PagCond.statusNe EntryStatusRemoved]
    entryID := entryID
    order := order
    direction := direction }

/-- `WithSearchQuery` appends a title-or-content `LIKE` condition when the
query is nonempty. -/
def EntryPaginationBuilder.WithSearchQuery (b : EntryPaginationBuilder)
    (query : String) : EntryPaginationBuilder :=
  if query != "" then { b with conditions := b.conditions ++ [PagCond.searchQuery query] }
  else b

/-- `WithStarred` appends `e.starred = 1`. -/
def EntryPaginationBuilder.WithStarred (b : EntryPaginationBuilder) :
    EntryPaginationBuilder :=
  { b with conditions := b.conditions ++ [PagCond.starredOnly] }

/-- `WithFeedID` appends `e.feed_id = ?` for a nonzero feed id. -/
def EntryPaginationBuilder.WithFeedID (b : EntryPaginationBuilder)
    (feedID : Int) : EntryPaginationBuilder :=
  if feedID != 0 then { b with conditions := b.conditions ++ [PagCond.feedEq feedID] }
  else b

/-- `WithCategoryID` appends `f.category_id = ?` for a nonzero category id. -/
def EntryPaginationBuilder.WithCategoryID (b : EntryPaginationBuilder)
    (categoryID : Int) : EntryPaginationBuilder :=
  if categoryID != 0 then { b with conditions := b.conditions ++ [PagCond.categoryEq categoryID] }
  else b

/-- `WithStatus` appends `e.status = ?` for a nonempty status. -/
def EntryPaginationBuilder.WithStatus (b : EntryPaginationBuilder)
    (status : String) : EntryPaginationBuilder :=
  if status != "" then { b with conditions := b.conditions ++ [PagCond.statusEq status] }
  else b

/-- `WithTags` appends one `e.tags LIKE '%"tag"%'` condition per tag. -/
def EntryPaginationBuilder.WithTags (b : EntryPaginationBuilder)
    (tags : List String) : EntryPaginationBuilder :=
  { b with conditions := b.conditions ++ tags.map PagCond.tagLike }

/-- `WithGloballyVisible` appends `c.hide_globally = 0` and
`f.hide_globally = 0`. -/
def EntryPaginationBuilder.WithGloballyVisible (b : EntryPaginationBuilder) :
    EntryPaginationBuilder :=
  { b with conditions := b.conditions ++ [PagCond.categoryNotHidden, PagCond.feedNotHidden] }

/-- First `feeds` row with the given id (`f.id = e.feed_id`). -/
def findFeed (db : DB) (id : Int) : Option Feed :=
  db.feeds.find? (fun f => f.id == id)

/-- First `categories` row with the given id (`c.id = f.category_id`). -/
def findCategory (db : DB) (id : Int) : Option Category :=
  db.categories.find? (fun c => c.id == id)

/-- Whether an entry row survives the JOIN and satisfies every accumulated
condition. -/
def rowPasses (db : DB) (conds : List PagCond) (e : Entry) : Bool :=
  match findFeed db e.feedID with
  | none => false
  | some f =>
    match findCategory db f.categoryID with
    | none => false
    | some c => conds.all (evalCond e f c)

/-- Value of the interpolated ordering column `e.%s`; the two column names
callers pass are `created_at` and `published_at`. -/
def orderVal (order : String) (e : Entry) : Int :=
  if order == "created_at" then e.createdAt else e.publishedAt

/-- `(SELECT order-column FROM entries WHERE id = ?)`: the anchor's
ordering value, `none` (SQL NULL) when the anchor id has no row. -/
def anchorValue (db : DB) (order : String) (entryID : Int) : Option Int :=
  (db.entries.find? (fun e => e.id == entryID)).map (orderVal order)

/-- The WHERE disjunct of the previous-neighbor query: the row's ordering
value is strictly below the anchor's, or equal to it with a strictly
greater id.  A NULL anchor value satisfies nothing. -/
def prevCandidate (db : DB) (b : EntryPaginationBuilder) (e : Entry) : Bool :=
  rowPasses db b.conditions e &&
    match anchorValue db b.order b.entryID with
    | none => false
    | some v =>
      decide (orderVal b.order e < v) ||
        (orderVal b.order e == v && decide (b.entryID < e.id))

/-- The WHERE disjunct of the next-neighbor query: strictly above, or
equal with a strictly smaller id. -/
def nextCandidate (db : DB) (b : EntryPaginationBuilder) (e : Entry) : Bool :=
  rowPasses db b.conditions e &&
    match anchorValue db b.order b.entryID with
    | none => false
    | some v =>
      decide (v < orderVal b.order e) ||
        (orderVal b.order e == v && decide (e.id < b.entryID))

/-- `ORDER BY e.order DESC, e.created_at DESC, e.id ASC`: `a` sorts
strictly before `b`. -/
def prevLt (order : String) (a b : Entry) : Bool :=
  decide (orderVal order b < orderVal order a) ||
    (orderVal order a == orderVal order b &&
      (decide (b.createdAt < a.createdAt) ||
        (a.createdAt == b.createdAt && decide (a.id < b.id))))

/-- `ORDER BY e.order ASC, e.created_at ASC, e.id DESC`: `a` sorts
strictly before `b`. -/
def nextLt (order : String) (a b : Entry) : Bool :=
  decide (orderVal order a < orderVal order b) ||
    (orderVal order a == orderVal order b &&
      (decide (a.createdAt < b.createdAt) ||
        (a.createdAt == b.createdAt && decide (b.id < a.id))))

/-- `ORDER BY ... LIMIT 1`: the first row of the list under the strict
order `lt` (earlier rows win ties). -/
def firstUnder (lt : Entry → Entry → Bool) : List Entry → Option Entry
  | [] => none
  | e :: rest =>
    match firstUnder lt rest with
    | none => some e
    | some best => if lt best e then some best else some e

/-- `getPrevNextID`: run the two neighbor queries; a missing neighbor
leaves the corresponding id at `0` (the zero value of the scanned
`sql.NullInt64`). -/
def getPrevNextID (db : DB) (b : EntryPaginationBuilder) : Int × Int :=
  ((match firstUnder (prevLt b.order) (db.entries.filter (prevCandidate db b)) with
    | none => 0
    | some e => e.id),
   (match firstUnder (nextLt b.order) (db.entries.filter (nextCandidate db b)) with
    | none => 0
    | some e => e.id))

/-- `getEntry`: `SELECT id, title FROM entries WHERE id = ?`, scanning only
the id and title; no row is `nil`, not an error. -/
def getEntry (db : DB) (entryID : Int) : Option (Int × String) :=
  (db.entries.find? (fun e => e.id == entryID)).map (fun e => (e.id, e.title))

/-- `EntryPaginationBuilder.Entries`: fetch both neighbor ids, resolve each
to `(id, title)`, and swap the pair when the direction is `desc`. -/
def EntryPaginationBuilder.Entries (b : EntryPaginationBuilder) (db : DB) :
    Option (Int × String) × Option (Int × String) :=
  let ids := getPrevNextID db b
  let prevEntry := getEntry db ids.1
  let nextEntry := getEntry db ids.2
  if b.direction == "desc" then (nextEntry, prevEntry)
  else (prevEntry, nextEntry)

/-! ## Concrete fixtures used by counterexamples and witnesses -/

/-- A template row; the concrete databases below override the fields they
care about. -/
def entry0 : Entry :=
  { id := 0, userID := 0, feedID := 0, hash := "", title := "", url := ""
    commentsURL := "", content := "", author := "", readingTime := 0
    tags := [], status := EntryStatusUnread, starred := false, shareCode := ""
    publishedAt := 0, createdAt := 0, changedAt := 0 }

/-- Removed entry of feed 1 with hash `hashA`. -/
def rowA : Entry :=
  { entry0 with
    id := 1, userID := 1, feedID := 1, hash := "hashA"
    status := EntryStatusRemoved }

/-- Removed entry of feed 1 with hash `hashB`. -/
def rowB : Entry :=
  { entry0 with
    id := 2, userID := 1, feedID := 1, hash := "hashB"
    status := EntryStatusRemoved }

/-- Removed entry of feed 1 with hash `hashC`. -/
def rowC : Entry :=
  { entry0 with
    id := 3, userID := 1, feedID := 1, hash := "hashC"
    status := EntryStatusRemoved }

/-- Feed 1 with removed entries of hashes `hashA`, `hashB`, `hashC`. -/
def dbRemovedABC : DB :=
  { entries := [rowA, rowB, rowC], feeds := [], categories := [], nextEntryID := 4 }

/-- Feed 1 with only the removed entry of hash `hashB`. -/
def dbRemovedB : DB :=
  { entries := [rowB], feeds := [], categories := [], nextEntryID := 3 }

/-- A database whose only entry (id 5) belongs to user 2. -/
def dbForeign : DB :=
  { entries := [{ entry0 with id := 5, userID := 2 }],
    feeds := [], categories := [], nextEntryID := 6 }

/-! ## C10 -/

/-- C10: with an empty observed hash set `cleanupEntries` performs no
deletion and returns success, and a refresh with zero candidates commits
nothing, returns no new entries, and schedules a cleanup with the empty
hash set, whose execution also leaves the database unchanged — so such a
refresh never purges any removed entries for the feed. -/
theorem cleanupEntries_empty_hashes_noop (feedID : Int) (db : DB)
    (now userID : Int) (updateExistingEntries : Bool) :
    cleanupEntries feedID [] db = db ∧
    RefreshFeedEntries now userID feedID [] updateExistingEntries db =
      { db := db, result := Except.ok [], scheduledCleanup := some [] } ∧
    runScheduledCleanup feedID
      (RefreshFeedEntries now userID feedID [] updateExistingEntries db) = db :=
  ⟨rfl, rfl, rfl⟩

/-! ## C4 -/

/-- C4 counterexample: the claim describes `cleanupEntries` as deleting
exactly the removed entries of the feed whose hash is outside the given
set, for any hash set.  With the empty set the code returns immediately:
`rowB` is a removed entry of feed 1 whose hash is not in the (empty)
set, yet it survives `cleanupEntries 1 []`. -/
theorem cleanupEntries_empty_set_keeps_stale :
    rowB.feedID = 1 ∧ rowB.status = EntryStatusRemoved ∧
    rowB.hash ∉ ([] : List String) ∧
    (cleanupEntries 1 [] dbRemovedB).entries = [rowB] := by
  refine ⟨rfl, rfl, by simp, rfl⟩

/-- C4 (amended to a nonempty observed set): for a nonempty hash list,
`cleanupEntries` keeps exactly the entries that are of another feed, or
not removed, or whose hash is in the set; with stored removed entries of
hashes `{hashA, hashB, hashC}` and observed set `{hashA, hashC}` only the
`hashB` entry is deleted.  With an empty hash list nothing is deleted. -/
theorem cleanupEntries_deletes_exactly (feedID : Int)
    (entryHashes : List String) (db : DB) (hne : entryHashes ≠ []) :
    (∀ e : Entry, e ∈ (cleanupEntries feedID entryHashes db).entries ↔
      e ∈ db.entries ∧
        ¬(e.feedID = feedID ∧ e.status = EntryStatusRemoved ∧
          e.hash ∉ entryHashes)) ∧
    (cleanupEntries feedID [] db = db) ∧
    (cleanupEntries 1 ["hashA", "hashC"] dbRemovedABC).entries = [rowA, rowC] := by
  refine ⟨?_, rfl, rfl⟩
  intro e
  have hlen : (entryHashes.length == 0) = false := by
    simp only [beq_eq_false_iff_ne, ne_eq, List.length_eq_zero]
    exact hne
  simp only [cleanupEntries, hlen, Bool.false_eq_true, if_false, List.mem_filter]
  constructor
  · rintro ⟨hmem, hcond⟩
    refine ⟨hmem, ?_⟩
    rintro ⟨hf, hs, hh⟩
    simp [hf, hs, hh] at hcond
  · rintro ⟨hmem, hcond⟩
    refine ⟨hmem, ?_⟩
    by_cases hf : e.feedID = feedID
    · by_cases hs : e.status = EntryStatusRemoved
      · have hh : e.hash ∈ entryHashes := by
          by_contra hh
          exact hcond ⟨hf, hs, hh⟩
        simp [hf, hs, hh]
      · simp [hs]
    · simp [hf]

/-- C4 witness: the amended theorem applied to the `{hashA,hashB,hashC}`
database with the nonempty observed set `{hashA, hashC}`. -/
theorem cleanupEntries_deletes_exactly_witness :
    (["hashA", "hashC"] : List String) ≠ [] ∧
    ((∀ e : Entry, e ∈ (cleanupEntries 1 ["hashA", "hashC"] dbRemovedABC).entries ↔
        e ∈ dbRemovedABC.entries ∧
          ¬(e.feedID = 1 ∧ e.status = EntryStatusRemoved ∧
            e.hash ∉ (["hashA", "hashC"] : List String))) ∧
      (cleanupEntries 1 [] dbRemovedABC = dbRemovedABC) ∧
      (cleanupEntries 1 ["hashA", "hashC"] dbRemovedABC).entries = [rowA, rowC]) :=
  ⟨by simp, cleanupEntries_deletes_exactly 1 ["hashA", "hashC"] dbRemovedABC (by simp)⟩

/-! ## C9 -/

/-- C9: `ToggleBookmark` on an id that matches no row of the user (foreign
or missing entry) affects zero rows — the database is returned unchanged —
and signals the distinct NothingUpdated error, which is not the NotFound
taxonomy value; when it matches exactly one row it returns success. -/
theorem toggleBookmark_signaling (now userID entryID : Int) (db : DB) :
    ((∀ e ∈ db.entries, ¬(e.userID = userID ∧ e.id = entryID)) →
      ToggleBookmark now userID entryID db =
        (db, Except.error StoreError.nothingUpdated)) ∧
    ((db.entries.filter (fun e => e.userID == userID && e.id == entryID)).length = 1 →
      (ToggleBookmark now userID entryID db).2 = Except.ok ()) ∧
    StoreError.nothingUpdated ≠ StoreError.notFound := by
  refine ⟨?_, ?_, by simp⟩
  · intro hforeign
    have hmatch : ∀ e ∈ db.entries,
        (e.userID == userID && e.id == entryID) = false := by
      intro e he
      have := hforeign e he
      simp only [Bool.and_eq_false_iff, beq_eq_false_iff_ne, ne_eq]
      by_cases hu : e.userID = userID
      · exact Or.inr (fun hid => this ⟨hu, hid⟩)
      · exact Or.inl hu
    have hfilter : db.entries.filter
        (fun e => e.userID == userID && e.id == entryID) = [] := by
      rw [List.filter_eq_nil_iff]
      intro e he
      simp [hmatch e he]
    have hmap : db.entries.map (fun e =>
        if e.userID == userID && e.id == entryID then
          { e with starred := !e.starred, changedAt := now }
        else e) = db.entries := by
      calc db.entries.map (fun e =>
          if e.userID == userID && e.id == entryID then
            { e with starred := !e.starred, changedAt := now }
          else e)
        _ = db.entries.map id := by
            apply List.map_congr_left
            intro e he
            simp [hmatch e he]
        _ = db.entries := List.map_id db.entries
    simp only [ToggleBookmark]
    rw [hmap, hfilter]
    rfl
  · intro hone
    have : ((db.entries.filter
        (fun e => e.userID == userID && e.id == entryID)).length == 0) = false := by
      simp [hone]
    simp [ToggleBookmark, this]

/-- C9 witness: toggling entry 5 (owned by user 2) as user 1 yields the
NothingUpdated error with the database unchanged, and toggling it as its
owner succeeds. -/
theorem toggleBookmark_signaling_witness :
    ToggleBookmark 100 1 5 dbForeign =
      (dbForeign, Except.error StoreError.nothingUpdated) ∧
    (ToggleBookmark 100 2 5 dbForeign).2 = Except.ok () :=
  ⟨(toggleBookmark_signaling 100 1 5 dbForeign).1 (by decide),
   (toggleBookmark_signaling 100 2 5 dbForeign).2.1 (by decide)⟩

/-! ## C5 -/

theorem mem_insertByCreatedAt {e x : Entry} {l : List Entry} :
    e ∈ insertByCreatedAt x l ↔ e = x ∨ e ∈ l := by
  induction l with
  | nil => simp [insertByCreatedAt]
  | cons y ys ih =>
    simp only [insertByCreatedAt]
    split
    · simp [List.mem_cons]
    · simp only [List.mem_cons, ih]
      tauto

theorem mem_sortByCreatedAt {e : Entry} {l : List Entry} :
    e ∈ sortByCreatedAt l ↔ e ∈ l := by
  induction l with
  | nil => simp [sortByCreatedAt]
  | cons y ys ih => simp [sortByCreatedAt, mem_insertByCreatedAt, ih]

/-- C5: a starred entry, or one with a nonempty share code, is never
touched by `ArchiveEntries` (whatever the status, days, and limit
arguments) nor by `FlushHistory`: the stored row — in particular its
status — is exactly as before.  `hnodup` is the primary-key invariant on
`entries.id`. -/
theorem archive_flush_exempt (now1 now2 : Int) (status : String)
    (days limit userID : Int) (db : DB) (i : Nat) (e : Entry)
    (hnodup : (db.entries.map Entry.id).Nodup)
    (hi : db.entries[i]? = some e)
    (hex : e.starred = true ∨ e.shareCode ≠ "") :
    (ArchiveEntries now1 status days limit db).1.entries[i]? = some e ∧
    (FlushHistory now2 userID db).entries[i]? = some e := by
  have hmem : e ∈ db.entries := by
    obtain ⟨hlt, he⟩ := List.getElem?_eq_some.mp hi
    exact he ▸ List.getElem_mem hlt
  constructor
  · unfold ArchiveEntries
    split
    · exact hi
    · show (db.entries.map (fun x =>
          if (archiveSelectedIDs now1 status days limit db).contains x.id then
            { x with status := EntryStatusRemoved }
          else x))[i]? = some e
      rw [List.getElem?_map, hi]
      have hnotmem : e.id ∉ archiveSelectedIDs now1 status days limit db := by
        intro hidmem
        obtain ⟨y, hy, hyid⟩ := List.mem_map.mp hidmem
        have hy2 := mem_sortByCreatedAt.mp (List.mem_of_mem_take hy)
        obtain ⟨hy3, hy4⟩ := List.mem_filter.mp hy2
        have hye : y = e := List.inj_on_of_nodup_map hnodup hy3 hmem hyid
        subst hye
        simp only [Bool.and_eq_true, beq_iff_eq] at hy4
        rcases hex with hst | hsh
        · rw [hst] at hy4
          simp at hy4
        · exact hsh hy4.1.2
      simp [hnotmem]
  · show (db.entries.map (fun x =>
        if x.userID == userID && x.status == EntryStatusRead &&
           x.starred == false && x.shareCode == "" then
          { x with status := EntryStatusRemoved, changedAt := now2 }
        else x))[i]? = some e
    rw [List.getElem?_map, hi]
    rcases hex with hst | hsh
    · simp [hst]
    · simp [hsh]

/-- A starred old read entry of user 1 (id 7), as a concrete database. -/
def starredOldRow : Entry :=
  { entry0 with
    id := 7, userID := 1, status := EntryStatusRead, starred := true }

/-- Database holding only `starredOldRow`. -/
def dbStarred : DB :=
  { entries := [starredOldRow], feeds := [], categories := [], nextEntryID := 8 }

/-- C5 witness: archiving every read entry older than 0 days and flushing
the history both leave the starred read entry of `dbStarred` untouched. -/
theorem archive_flush_exempt_witness :
    (dbStarred.entries.map Entry.id).Nodup ∧
    ((ArchiveEntries 10000 "read" 0 100 dbStarred).1.entries[0]? = some starredOldRow ∧
     (FlushHistory 10000 1 dbStarred).entries[0]? = some starredOldRow) :=
  ⟨by decide,
   archive_flush_exempt 10000 10000 "read" 0 100 1 dbStarred 0 starredOldRow
     (by decide) (by decide) (Or.inl (by decide))⟩

/-! ## C8 -/

/-- Rows of users other than `userID` pass unchanged through a per-row
update that fixes rows of other users and preserves ownership. -/
theorem filter_userNe_map_frame (userID : Int) (f : Entry → Entry)
    (hfix : ∀ e, e.userID ≠ userID → f e = e)
    (hpres : ∀ e, (f e).userID = e.userID) (l : List Entry) :
    (l.map f).filter (fun e => e.userID != userID) =
      l.filter (fun e => e.userID != userID) := by
  induction l with
  | nil => rfl
  | cons x xs ih =>
    by_cases hx : x.userID = userID
    · have h1 : ((f x).userID != userID) = false := by simp [hpres x, hx]
      have h2 : (x.userID != userID) = false := by simp [hx]
      simp only [List.map_cons, List.filter_cons, h1, h2, Bool.false_eq_true,
        if_false, ih]
    · have h1 : (x.userID != userID) = true := by simp [hx]
      rw [List.map_cons, List.filter_cons, List.filter_cons, hfix x hx, h1]
      simp [ih]

/-- An old read entry of user 1. -/
def archUser1Row : Entry :=
  { entry0 with id := 1, userID := 1, status := EntryStatusRead }

/-- An old read entry of user 2. -/
def archUser2Row : Entry :=
  { entry0 with id := 2, userID := 2, status := EntryStatusRead }

/-- A database with one archivable read entry per user. -/
def dbTwoUsers : DB :=
  { entries := [archUser1Row, archUser2Row], feeds := [], categories := [],
    nextEntryID := 3 }

/-- C8 counterexample: `ArchiveEntries` takes no user id and is not scoped
to any user: a single call transitions the read entries of both user 1
and user 2 to removed, so no choice of scoping user leaves the other
users' entries unchanged. -/
theorem archiveEntries_not_user_scoped :
    ¬ ∃ userID : Int,
      (ArchiveEntries 1000 "read" 0 10 dbTwoUsers).1.entries.filter
          (fun e => e.userID != userID) =
        dbTwoUsers.entries.filter (fun e => e.userID != userID) := by
  rintro ⟨u, h⟩
  have harch : (ArchiveEntries 1000 "read" 0 10 dbTwoUsers).1.entries =
      [{ archUser1Row with status := EntryStatusRemoved },
       { archUser2Row with status := EntryStatusRemoved }] := by decide
  rw [harch] at h
  by_cases hu : u = 1
  · subst hu
    simp [dbTwoUsers, archUser1Row, archUser2Row, entry0, List.filter,
      EntryStatusRemoved, EntryStatusRead] at h
  · have hne : ((1 : Int) != u) = true := by
      simp only [bne_iff_ne, ne_eq]
      exact fun hh => hu hh.symm
    simp [dbTwoUsers, archUser1Row, archUser2Row, entry0, List.filter, hne,
      EntryStatusRemoved, EntryStatusRead] at h

/-- C8 (amended to the operations that actually take a user id): every
user-scoped bulk operation — `SetEntriesStatus`,
`SetEntriesBookmarkedState`, `ToggleBookmark`, `FlushHistory`,
`MarkAllAsRead`, `MarkAllAsReadBeforeDate`,
`MarkGloballyVisibleFeedsAsRead`, `MarkFeedAsRead`, `MarkCategoryAsRead` —
leaves the entries of every other user exactly unchanged.
(`ArchiveEntries` is excluded: it takes no user id, see the
counterexample.) -/
theorem bulk_ops_user_scoped (now userID entryID : Int) (entryIDs : List Int)
    (status : String) (starred : Bool) (before feedID categoryID : Int)
    (db : DB) :
    ((SetEntriesStatus now userID entryIDs status db).entries.filter
        (fun e => e.userID != userID) =
      db.entries.filter (fun e => e.userID != userID)) ∧
    ((SetEntriesBookmarkedState now userID entryIDs starred db).1.entries.filter
        (fun e => e.userID != userID) =
      db.entries.filter (fun e => e.userID != userID)) ∧
    ((ToggleBookmark now userID entryID db).1.entries.filter
        (fun e => e.userID != userID) =
      db.entries.filter (fun e => e.userID != userID)) ∧
    ((FlushHistory now userID db).entries.filter
        (fun e => e.userID != userID) =
      db.entries.filter (fun e => e.userID != userID)) ∧
    ((MarkAllAsRead now userID db).entries.filter
        (fun e => e.userID != userID) =
      db.entries.filter (fun e => e.userID != userID)) ∧
    ((MarkAllAsReadBeforeDate now userID before db).entries.filter
        (fun e => e.userID != userID) =
      db.entries.filter (fun e => e.userID != userID)) ∧
    ((MarkGloballyVisibleFeedsAsRead now userID db).entries.filter
        (fun e => e.userID != userID) =
      db.entries.filter (fun e => e.userID != userID)) ∧
    ((MarkFeedAsRead now userID feedID before db).entries.filter
        (fun e => e.userID != userID) =
      db.entries.filter (fun e => e.userID != userID)) ∧
    ((MarkCategoryAsRead now userID categoryID before db).entries.filter
        (fun e => e.userID != userID) =
      db.entries.filter (fun e => e.userID != userID)) := by
  refine ⟨?_, ?_, ?_, ?_, ?_, ?_, ?_, ?_, ?_⟩
  · unfold SetEntriesStatus
    split
    · rfl
    · exact filter_userNe_map_frame userID _
        (fun e he => by simp [he]) (fun e => by split <;> rfl) db.entries
  · unfold SetEntriesBookmarkedState
    split
    · rfl
    · exact filter_userNe_map_frame userID _
        (fun e he => by simp [he]) (fun e => by split <;> rfl) db.entries
  · exact filter_userNe_map_frame userID _
      (fun e he => by simp [he]) (fun e => by split <;> rfl) db.entries
  · exact filter_userNe_map_frame userID _
      (fun e he => by simp [he]) (fun e => by split <;> rfl) db.entries
  · exact filter_userNe_map_frame userID _
      (fun e he => by simp [he]) (fun e => by split <;> rfl) db.entries
  · exact filter_userNe_map_frame userID _
      (fun e he => by simp [he]) (fun e => by split <;> rfl) db.entries
  · exact filter_userNe_map_frame userID _
      (fun e he => by simp [he]) (fun e => by split <;> rfl) db.entries
  · exact filter_userNe_map_frame userID _
      (fun e he => by simp [he]) (fun e => by split <;> rfl) db.entries
  · exact filter_userNe_map_frame userID _
      (fun e he => by simp [he]) (fun e => by split <;> rfl) db.entries

/-! ## C2 -/

/-- A stored read entry (feed 1, hash `h1`) with `changedAt = 5`. -/
def staleRow : Entry :=
  { entry0 with
    id := 1, userID := 1, feedID := 1, hash := "h1", title := "old title",
    status := EntryStatusRead, publishedAt := 10, createdAt := 4, changedAt := 5 }

/-- A fresh candidate for the same hash with a changed title. -/
def freshCandidate : Entry :=
  { entry0 with hash := "h1", title := "new title", publishedAt := 20 }

/-- Database holding only `staleRow`. -/
def dbStale : DB :=
  { entries := [staleRow], feeds := [], categories := [], nextEntryID := 2 }

/-- C2 counterexample: refreshing the existing hash `h1` with
`updateExisting=true` at time 100 rewrites the title in place but leaves
`changed_at` at its prior value 5 — `updateEntry`'s UPDATE statement does
not set `changed_at`, contradicting the claim that `changedAt` is
changed. -/
theorem updateEntry_changedAt_counterexample :
    staleRow.title = "old title" ∧ staleRow.changedAt = 5 ∧
    (RefreshFeedEntries 100 1 1 [freshCandidate] true dbStale).db.entries.map
        Entry.title = ["new title"] ∧
    (RefreshFeedEntries 100 1 1 [freshCandidate] true dbStale).db.entries.map
        Entry.changedAt = [5] := by
  refine ⟨rfl, rfl, by decide, by decide⟩

/-- `updateEntry` on a present `(user, feed, hash)` key succeeds and
refreshes exactly the seven bound columns of every matching row. -/
theorem updateEntry_ok (entry : Entry) (db : DB)
    (h : ∃ e ∈ db.entries,
      e.userID = entry.userID ∧ e.feedID = entry.feedID ∧ e.hash = entry.hash) :
    updateEntry entry db = Except.ok
      { db with entries := db.entries.map (fun e =>
          if e.userID == entry.userID && e.feedID == entry.feedID &&
             e.hash == entry.hash then
            { e with
              title := entry.title, url := entry.url
              commentsURL := entry.commentsURL, content := entry.content
              author := entry.author, readingTime := entry.readingTime
              tags := entry.tags }
          else e) } := by
  obtain ⟨w, hw, h1, h2, h3⟩ := h
  have hmem : w ∈ db.entries.filter (fun e =>
      e.userID == entry.userID && e.feedID == entry.feedID &&
      e.hash == entry.hash) := by
    rw [List.mem_filter]
    exact ⟨hw, by simp [h1, h2, h3]⟩
  have hlen : ((db.entries.filter (fun e =>
      e.userID == entry.userID && e.feedID == entry.feedID &&
      e.hash == entry.hash)).length == 0) = false := by
    simp only [beq_eq_false_iff_ne, ne_eq]
    intro hzero
    rw [List.length_eq_zero] at hzero
    rw [hzero] at hmem
    exact absurd hmem (List.not_mem_nil w)
  simp only [updateEntry, hlen, Bool.false_eq_true, if_false]

/-- C2 (amended: `changedAt` is also left unchanged): refreshing a single
candidate whose `(userID, feedID, hash)` key is present with
`updateExisting=true` reports no new entries and rewrites the stored rows
in place: matching rows get the candidate's title, URL, comments URL,
content, author, reading time, and tags, while their `status`,
`publishedAt`, `changedAt`, `starred`, `shareCode`, `createdAt` and `id`
are all left untouched; non-matching rows are unchanged. -/
theorem refresh_update_preserves_user_state (now userID feedID : Int)
    (cand : Entry) (db : DB)
    (hmatch : ∃ e ∈ db.entries,
      e.userID = userID ∧ e.feedID = feedID ∧ e.hash = cand.hash) :
    (RefreshFeedEntries now userID feedID [cand] true db).result = Except.ok [] ∧
    (RefreshFeedEntries now userID feedID [cand] true db).db.entries =
      db.entries.map (fun e =>
        if e.userID == userID && e.feedID == feedID && e.hash == cand.hash then
          { e with
            title := cand.title, url := cand.url
            commentsURL := cand.commentsURL, content := cand.content
            author := cand.author, readingTime := cand.readingTime
            tags := cand.tags }
        else e) := by
  obtain ⟨w, hw, hwu, hwf, hwh⟩ := hmatch
  have hex : entryExists { cand with userID := userID, feedID := feedID } db = true := by
    simp only [entryExists, List.any_eq_true]
    refine ⟨w, hw, ?_⟩
    simp [hwf, hwh]
  have hupd := updateEntry_ok { cand with userID := userID, feedID := feedID } db
    ⟨w, hw, hwu, hwf, hwh⟩
  have href : RefreshFeedEntries now userID feedID [cand] true db =
      { db := { db with entries := db.entries.map (fun e =>
            if e.userID == userID && e.feedID == feedID && e.hash == cand.hash then
              { e with
                title := cand.title, url := cand.url
                commentsURL := cand.commentsURL, content := cand.content
                author := cand.author, readingTime := cand.readingTime
                tags := cand.tags }
            else e) },
        result := Except.ok [],
        scheduledCleanup := some [cand.hash] } := by
    simp [RefreshFeedEntries, refreshLoop, processEntry, prepCandidate, hex, hupd]
  rw [href]
  exact ⟨rfl, rfl⟩

/-- C2 witness: the amended theorem applied to `dbStale` and the fresh
candidate for hash `h1`. -/
theorem refresh_update_preserves_user_state_witness :
    (RefreshFeedEntries 100 1 1 [freshCandidate] true dbStale).result =
      Except.ok [] ∧
    (RefreshFeedEntries 100 1 1 [freshCandidate] true dbStale).db.entries =
      dbStale.entries.map (fun e =>
        if e.userID == 1 && e.feedID == 1 && e.hash == freshCandidate.hash then
          { e with
            title := freshCandidate.title, url := freshCandidate.url
            commentsURL := freshCandidate.commentsURL, content := freshCandidate.content
            author := freshCandidate.author, readingTime := freshCandidate.readingTime
            tags := freshCandidate.tags }
        else e) :=
  refresh_update_preserves_user_state 100 1 1 freshCandidate dbStale
    ⟨staleRow, by decide, by decide, by decide, by decide⟩

/-! ## C1 -/

/-- `entryExists` is exactly positivity of the `(feed_id, hash)` row
count. -/
theorem entryExists_true_iff (entry : Entry) (db : DB) :
    entryExists entry db = true ↔
      0 < countEntriesByKey entry.feedID entry.hash db := by
  simp [entryExists, countEntriesByKey, List.any_eq_true,
    List.length_pos_iff_exists_mem, List.mem_filter]

/-- Filtering first by a weaker predicate does not change the count of a
stronger one. -/
theorem filter_filter_length_of_imp (p q : Entry → Bool)
    (h : ∀ e, p e = true → q e = true) (l : List Entry) :
    ((l.filter q).filter p).length = (l.filter p).length := by
  induction l with
  | nil => rfl
  | cons x xs ih =>
    by_cases hp : p x = true
    · have hq := h x hp
      simp only [List.filter_cons, hp, hq, if_true, List.length_cons, ih]
    · rw [Bool.not_eq_true] at hp
      by_cases hq : q x = true
      · simp only [List.filter_cons, hp, hq, Bool.false_eq_true, if_false,
          if_true, ih]
      · rw [Bool.not_eq_true] at hq
        simp only [List.filter_cons, hp, hq, Bool.false_eq_true, if_false, ih]

/-- A reaper sweep whose observed set contains a hash never changes the
row count of that hash's dedup key. -/
theorem countEntriesByKey_cleanup (feedID : Int) (hash : String)
    (entryHashes : List String) (db : DB) (hmem : hash ∈ entryHashes) :
    countEntriesByKey feedID hash (cleanupEntries feedID entryHashes db) =
      countEntriesByKey feedID hash db := by
  unfold cleanupEntries
  split
  · rfl
  · refine filter_filter_length_of_imp _ _ ?_ db.entries
    intro e hp
    simp only [Bool.and_eq_true, beq_iff_eq] at hp
    simp [hp.2, hmem]

/-- Creating a candidate's row bumps its dedup-key count by one. -/
theorem countEntriesByKey_createEntry (now : Int) (entry : Entry) (db : DB) :
    countEntriesByKey entry.feedID entry.hash (createEntry now entry db).1 =
      countEntriesByKey entry.feedID entry.hash db + 1 := by
  simp [createEntry, countEntriesByKey, List.filter_append]

/-- A single-candidate refresh with `updateExisting=false` either no-ops
(hash present) or inserts the candidate's row (hash absent); either way it
schedules a cleanup with that candidate's hash. -/
theorem refresh_single_noupdate (now userID feedID : Int) (cand : Entry)
    (db : DB) :
    RefreshFeedEntries now userID feedID [cand] false db =
      if entryExists (prepCandidate userID feedID cand) db then
        { db := db, result := Except.ok [],
          scheduledCleanup := some [(prepCandidate userID feedID cand).hash] }
      else
        { db := (createEntry now (prepCandidate userID feedID cand) db).1,
          result := Except.ok [(createEntry now (prepCandidate userID feedID cand) db).2],
          scheduledCleanup := some [(prepCandidate userID feedID cand).hash] } := by
  by_cases hex : entryExists (prepCandidate userID feedID cand) db = true
  · simp [RefreshFeedEntries, refreshLoop, processEntry, hex]
  · rw [Bool.not_eq_true] at hex
    simp [RefreshFeedEntries, refreshLoop, processEntry, hex]

/-- C1: starting from a database satisfying the `(feed_id, hash)`
uniqueness invariant for the candidate's key, refreshing the same single
candidate twice with `updateExisting=false` (running the scheduled reaper
sweep after each call) leaves exactly one stored row for that key; the
second call commits nothing (its database is exactly the one it was given)
and reports no new entries. -/
theorem refresh_dedup_idempotent (now1 now2 userID feedID : Int)
    (cand : Entry) (db : DB)
    (hkey : countEntriesByKey feedID cand.hash db ≤ 1) :
    countEntriesByKey feedID cand.hash
      (runScheduledCleanup feedID
        (RefreshFeedEntries now2 userID feedID [cand] false
          (runScheduledCleanup feedID
            (RefreshFeedEntries now1 userID feedID [cand] false db)))) = 1 ∧
    (RefreshFeedEntries now2 userID feedID [cand] false
        (runScheduledCleanup feedID
          (RefreshFeedEntries now1 userID feedID [cand] false db))).result =
      Except.ok [] ∧
    (RefreshFeedEntries now2 userID feedID [cand] false
        (runScheduledCleanup feedID
          (RefreshFeedEntries now1 userID feedID [cand] false db))).db =
      runScheduledCleanup feedID
        (RefreshFeedEntries now1 userID feedID [cand] false db) := by
  have hmemhash : cand.hash ∈ [(prepCandidate userID feedID cand).hash] := by
    simp [prepCandidate]
  have hdb1 : countEntriesByKey feedID cand.hash
      (runScheduledCleanup feedID
        (RefreshFeedEntries now1 userID feedID [cand] false db)) = 1 := by
    rw [refresh_single_noupdate]
    by_cases hex : entryExists (prepCandidate userID feedID cand) db = true
    · rw [if_pos hex]
      have hpos : 0 < countEntriesByKey feedID cand.hash db :=
        (entryExists_true_iff (prepCandidate userID feedID cand) db).mp hex
      have hone : countEntriesByKey feedID cand.hash db = 1 := by omega
      show countEntriesByKey feedID cand.hash
        (cleanupEntries feedID [(prepCandidate userID feedID cand).hash] db) = 1
      rw [countEntriesByKey_cleanup _ _ _ _ hmemhash, hone]
    · rw [if_neg hex]
      rw [Bool.not_eq_true] at hex
      have hzero : countEntriesByKey feedID cand.hash db = 0 := by
        have hnot : ¬ 0 < countEntriesByKey feedID cand.hash db := fun hpos =>
          by rw [(entryExists_true_iff (prepCandidate userID feedID cand) db).mpr hpos] at hex
             exact Bool.true_eq_false ▸ hex ▸ rfl
        omega
      show countEntriesByKey feedID cand.hash
        (cleanupEntries feedID [(prepCandidate userID feedID cand).hash]
          (createEntry now1 (prepCandidate userID feedID cand) db).1) = 1
      rw [countEntriesByKey_cleanup _ _ _ _ hmemhash]
      have hcreate := countEntriesByKey_createEntry now1
        (prepCandidate userID feedID cand) db
      rw [show countEntriesByKey (prepCandidate userID feedID cand).feedID
            (prepCandidate userID feedID cand).hash
            (createEntry now1 (prepCandidate userID feedID cand) db).1 =
          countEntriesByKey feedID cand.hash
            (createEntry now1 (prepCandidate userID feedID cand) db).1 from rfl] at hcreate
      rw [show countEntriesByKey (prepCandidate userID feedID cand).feedID
            (prepCandidate userID feedID cand).hash db =
          countEntriesByKey feedID cand.hash db from rfl] at hcreate
      rw [hcreate, hzero]
  have hex2 : entryExists (prepCandidate userID feedID cand)
      (runScheduledCleanup feedID
        (RefreshFeedEntries now1 userID feedID [cand] false db)) = true := by
    refine (entryExists_true_iff _ _).mpr ?_
    show 0 < countEntriesByKey feedID cand.hash
      (runScheduledCleanup feedID
        (RefreshFeedEntries now1 userID feedID [cand] false db))
    omega
  rw [refresh_single_noupdate now2 userID feedID cand, if_pos hex2]
  refine ⟨?_, rfl, rfl⟩
  show countEntriesByKey feedID cand.hash
    (cleanupEntries feedID [(prepCandidate userID feedID cand).hash]
      (runScheduledCleanup feedID
        (RefreshFeedEntries now1 userID feedID [cand] false db))) = 1
  rw [countEntriesByKey_cleanup _ _ _ _ hmemhash]
  exact hdb1

/-- The empty database. -/
def dbEmpty : DB :=
  { entries := [], feeds := [], categories := [], nextEntryID := 1 }

/-- C1 witness: the dedup-idempotence theorem applied to the empty
database and the `h1` candidate. -/
theorem refresh_dedup_idempotent_witness :
    countEntriesByKey 1 freshCandidate.hash
      (runScheduledCleanup 1
        (RefreshFeedEntries 200 1 1 [freshCandidate] false
          (runScheduledCleanup 1
            (RefreshFeedEntries 100 1 1 [freshCandidate] false dbEmpty)))) = 1 ∧
    (RefreshFeedEntries 200 1 1 [freshCandidate] false
        (runScheduledCleanup 1
          (RefreshFeedEntries 100 1 1 [freshCandidate] false dbEmpty))).result =
      Except.ok [] ∧
    (RefreshFeedEntries 200 1 1 [freshCandidate] false
        (runScheduledCleanup 1
          (RefreshFeedEntries 100 1 1 [freshCandidate] false dbEmpty))).db =
      runScheduledCleanup 1
        (RefreshFeedEntries 100 1 1 [freshCandidate] false dbEmpty) :=
  refresh_dedup_idempotent 100 200 1 1 freshCandidate dbEmpty (by decide)

/-! ## C3 -/

/-- The refresh loop processes a concatenation sequentially: an error in
the first segment short-circuits; otherwise the second segment continues
from the first segment's database. -/
theorem refreshLoop_append (now userID feedID : Int) (upd : Bool)
    (db : DB) (xs ys : List Entry) :
    refreshLoop now userID feedID upd db (xs ++ ys) =
      (match refreshLoop now userID feedID upd db xs with
       | (db1, Except.error err, hs) => (db1, Except.error err, hs)
       | (db1, Except.ok news, hs) =>
         match refreshLoop now userID feedID upd db1 ys with
         | (db2, Except.error err, hs2) => (db2, Except.error err, hs2)
         | (db2, Except.ok news2, hs2) =>
           (db2, Except.ok (news ++ news2), hs ++ hs2)) := by
  induction xs generalizing db with
  | nil =>
    simp only [List.nil_append, refreshLoop]
    rcases h : refreshLoop now userID feedID upd db ys with ⟨db2, res, hs2⟩
    rcases res with err | news <;> simp
  | cons x xs ih =>
    simp only [List.cons_append, refreshLoop]
    rcases hpe : processEntry now upd (prepCandidate userID feedID x) db with
      err | pair
    · rfl
    · rcases pair with ⟨db2, created⟩
      have ih2 := ih db2
      rcases h1 : refreshLoop now userID feedID upd db2 xs with ⟨db3, res1, hs1⟩
      rw [h1] at ih2
      rcases res1 with err1 | news1
      · simp at ih2
        simp [List.append_eq, ih2, h1]
      · simp at ih2
        rcases h2 : refreshLoop now userID feedID upd db3 ys with ⟨db4, res2, hs2⟩
        rw [h2] at ih2
        rcases res2 with err2 | news2 <;> simp at ih2 <;>
          simp [List.append_eq, ih2, h1, h2, List.append_assoc]

/-- C3: if the refresh loop succeeds on the first `k` candidates
(committing them as `dbk`) and processing candidate `k` fails, the whole
`RefreshFeedEntries` call returns that single error, its database is
exactly `dbk` — candidates `1..k-1` stay committed, candidates `k+1..n`
are never processed — and no stale-entry cleanup is scheduled for the
batch. -/
theorem refresh_partial_batch (now userID feedID : Int) (upd : Bool)
    (es : List Entry) (k : Nat) (db dbk : DB) (news : List Entry)
    (hs : List String) (err : StoreError) (hk : k < es.length)
    (hpre : refreshLoop now userID feedID upd db (es.take k) =
      (dbk, Except.ok news, hs))
    (hfail : processEntry now upd
      (prepCandidate userID feedID (es.get ⟨k, hk⟩)) dbk = Except.error err) :
    RefreshFeedEntries now userID feedID es upd db =
      { db := dbk, result := Except.error err, scheduledCleanup := none } := by
  have hsplit : es = es.take k ++ es.get ⟨k, hk⟩ :: es.drop (k + 1) := by
    conv_lhs => rw [← List.take_append_drop k es]
    rw [List.drop_eq_getElem_cons hk]
    rfl
  simp only [RefreshFeedEntries]
  rw [hsplit, refreshLoop_append, hpre]
  simp only [refreshLoop, hfail]

/-- A stored row for feed 1 hash `h` owned by user 2. -/
def foreignKeyRow : Entry :=
  { entry0 with id := 1, userID := 2, feedID := 1, hash := "h" }

/-- Database holding only `foreignKeyRow`. -/
def dbForeignHash : DB :=
  { entries := [foreignKeyRow], feeds := [], categories := [], nextEntryID := 2 }

/-- A candidate with hash `h` (to be stamped with the refreshing user). -/
def candH : Entry := { entry0 with hash := "h" }

/-- C3 witness: refreshing feed 1 as user 1 with `updateExisting=true`
fails on the first candidate — the hash exists (for user 2) but the UPDATE
matches zero rows — so the call returns the single update error, leaves
the database exactly as committed before the failing candidate, and
schedules no cleanup. -/
theorem refresh_partial_batch_witness :
    (0 : Nat) < [candH].length ∧
    RefreshFeedEntries 100 1 1 [candH] true dbForeignHash =
      { db := dbForeignHash,
        result := Except.error StoreError.noEntryFoundToUpdate,
        scheduledCleanup := none } :=
  ⟨by decide,
   refresh_partial_batch 100 1 1 true [candH] 0 dbForeignHash dbForeignHash
     [] [] StoreError.noEntryFoundToUpdate (by decide) (by decide) (by decide)⟩

/-! ## C7 -/

/-- Unfolding equation for `firstUnder` on a nonempty list. -/
theorem firstUnder_cons (lt : Entry → Entry → Bool) (x : Entry)
    (xs : List Entry) :
    firstUnder lt (x :: xs) =
      match firstUnder lt xs with
      | none => some x
      | some best => if lt best x then some best else some x := rfl

/-- `firstUnder` of a nonempty list is never `none`. -/
theorem firstUnder_ne_none {lt : Entry → Entry → Bool} (x : Entry)
    (xs : List Entry) : firstUnder lt (x :: xs) ≠ none := by
  rw [firstUnder_cons]
  rcases firstUnder lt xs with _ | b
  · simp
  · dsimp only
    split <;> simp

/-- The row `firstUnder` selects belongs to the list. -/
theorem firstUnder_mem {lt : Entry → Entry → Bool} {l : List Entry} {e : Entry}
    (h : firstUnder lt l = some e) : e ∈ l := by
  induction l generalizing e with
  | nil => simp [firstUnder] at h
  | cons x xs ih =>
    rw [firstUnder_cons] at h
    cases hr : firstUnder lt xs with
    | none =>
      rw [hr] at h
      simp only [Option.some.injEq] at h
      rw [← h]
      exact List.mem_cons_self x xs
    | some b =>
      rw [hr] at h
      simp only [] at h
      split at h <;> simp only [Option.some.injEq] at h <;> rw [← h]
      · exact List.mem_cons_of_mem x (ih hr)
      · exact List.mem_cons_self x xs

/-- For an irreflexive, transitive, negatively transitive strict order,
`firstUnder` returns a minimum: no list element sorts strictly before it. -/
theorem firstUnder_min {lt : Entry → Entry → Bool}
    (hirr : ∀ a, lt a a = false)
    (htrans : ∀ a b c, lt a b = true → lt b c = true → lt a c = true)
    (hneg : ∀ a b c, lt a c = true → lt a b = true ∨ lt b c = true) :
    ∀ {l : List Entry} {e : Entry}, firstUnder lt l = some e →
      ∀ x ∈ l, lt x e = false := by
  intro l
  induction l with
  | nil =>
    intro e h x hx
    simp at hx
  | cons y ys ih =>
    intro e h x hx
    rw [firstUnder_cons] at h
    cases hr : firstUnder lt ys with
    | none =>
      rw [hr] at h
      simp only [Option.some.injEq] at h
      have hnil : ys = [] := by
        cases ys with
        | nil => rfl
        | cons z zs => exact absurd hr (firstUnder_ne_none z zs)
      subst hnil
      rcases List.mem_singleton.mp hx with rfl
      rw [← h]
      exact hirr x
    | some b =>
      rw [hr] at h
      simp only [] at h
      split at h <;> simp only [Option.some.injEq] at h <;> rw [← h]
      · -- the recursive best `b` won the comparison with the head `y`
        next hlt =>
          rcases List.mem_cons.mp hx with rfl | hxs
          · by_contra hxb
            rw [Bool.not_eq_false] at hxb
            have hxx := htrans x b x hxb hlt
            rw [hirr x] at hxx
            exact Bool.false_ne_true hxx
          · exact ih hr x hxs
      · -- the head `y` won the comparison
        next hlt =>
          rcases List.mem_cons.mp hx with rfl | hxs
          · exact hirr x
          · by_contra hxy
            rw [Bool.not_eq_false] at hxy
            rcases hneg x b y hxy with h1 | h2
            · have := ih hr x hxs
              rw [this] at h1
              exact Bool.false_ne_true h1
            · exact hlt h2

theorem prevLt_irrefl (order : String) (a : Entry) : prevLt order a a = false := by
  simp [prevLt]

theorem prevLt_trans (order : String) (a b c : Entry) :
    prevLt order a b = true → prevLt order b c = true →
    prevLt order a c = true := by
  simp only [prevLt, Bool.or_eq_true, Bool.and_eq_true, decide_eq_true_eq,
    beq_iff_eq]
  omega

theorem prevLt_neg (order : String) (a b c : Entry) :
    prevLt order a c = true → prevLt order a b = true ∨ prevLt order b c = true := by
  simp only [prevLt, Bool.or_eq_true, Bool.and_eq_true, decide_eq_true_eq,
    beq_iff_eq]
  omega

theorem nextLt_irrefl (order : String) (a : Entry) : nextLt order a a = false := by
  simp [nextLt]

theorem nextLt_trans (order : String) (a b c : Entry) :
    nextLt order a b = true → nextLt order b c = true →
    nextLt order a c = true := by
  simp only [nextLt, Bool.or_eq_true, Bool.and_eq_true, decide_eq_true_eq,
    beq_iff_eq]
  omega

theorem nextLt_neg (order : String) (a b c : Entry) :
    nextLt order a c = true → nextLt order a b = true ∨ nextLt order b c = true := by
  simp only [nextLt, Bool.or_eq_true, Bool.and_eq_true, decide_eq_true_eq,
    beq_iff_eq]
  omega

/-- The claim's description of a "previous" candidate row: it satisfies the
accumulated conditions and its ordering value is strictly below the
anchor's, or equal to it with a strictly greater id. -/
def IsPrevCandidate (db : DB) (b : EntryPaginationBuilder) (e : Entry) : Prop :=
  rowPasses db b.conditions e = true ∧
  ∃ v, anchorValue db b.order b.entryID = some v ∧
    (orderVal b.order e < v ∨ (orderVal b.order e = v ∧ b.entryID < e.id))

/-- The claim's description of a "next" candidate row (symmetric). -/
def IsNextCandidate (db : DB) (b : EntryPaginationBuilder) (e : Entry) : Prop :=
  rowPasses db b.conditions e = true ∧
  ∃ v, anchorValue db b.order b.entryID = some v ∧
    (v < orderVal b.order e ∨ (orderVal b.order e = v ∧ e.id < b.entryID))

theorem isPrevCandidate_iff (db : DB) (b : EntryPaginationBuilder) (e : Entry) :
    prevCandidate db b e = true ↔ IsPrevCandidate db b e := by
  simp only [prevCandidate, IsPrevCandidate, Bool.and_eq_true]
  cases h : anchorValue db b.order b.entryID with
  | none => simp
  | some v => simp

theorem isNextCandidate_iff (db : DB) (b : EntryPaginationBuilder) (e : Entry) :
    nextCandidate db b e = true ↔ IsNextCandidate db b e := by
  simp only [nextCandidate, IsNextCandidate, Bool.and_eq_true]
  cases h : anchorValue db b.order b.entryID with
  | none => simp
  | some v => simp

/-- C7 (amended: the previous lookup orders ids ASCENDING among ties, the
next lookup DESCENDING): in a database whose rows have nonzero ids, the
"previous" component of `getPrevNextID` is 0 exactly when no row
satisfies the previous-candidate predicate, and otherwise is the id of a
candidate row that is first under the order
(orderingField DESC, createdAt DESC, id ASC); symmetrically the "next"
component selects the first candidate under
(orderingField ASC, createdAt ASC, id DESC), both limited to one row. -/
theorem getPrevNextID_selects_first (db : DB) (b : EntryPaginationBuilder) :
    (((getPrevNextID db b).1 = 0 ∧ ∀ e ∈ db.entries, ¬ IsPrevCandidate db b e) ∨
      (∃ e ∈ db.entries, e.id = (getPrevNextID db b).1 ∧ IsPrevCandidate db b e ∧
        ∀ e2 ∈ db.entries, IsPrevCandidate db b e2 →
          prevLt b.order e2 e = false)) ∧
    (((getPrevNextID db b).2 = 0 ∧ ∀ e ∈ db.entries, ¬ IsNextCandidate db b e) ∨
      (∃ e ∈ db.entries, e.id = (getPrevNextID db b).2 ∧ IsNextCandidate db b e ∧
        ∀ e2 ∈ db.entries, IsNextCandidate db b e2 →
          nextLt b.order e2 e = false)) := by
  constructor
  · rcases hf : firstUnder (prevLt b.order)
        (db.entries.filter (prevCandidate db b)) with _ | e
    · left
      have hempty : db.entries.filter (prevCandidate db b) = [] := by
        rcases hl : db.entries.filter (prevCandidate db b) with _ | ⟨z, zs⟩
        · rfl
        · rw [hl] at hf
          exact absurd hf (firstUnder_ne_none z zs)
      constructor
      · simp [getPrevNextID, hf]
      · intro e he hcand
        have : e ∈ db.entries.filter (prevCandidate db b) :=
          List.mem_filter.mpr ⟨he, (isPrevCandidate_iff db b e).mpr hcand⟩
        rw [hempty] at this
        exact absurd this (List.not_mem_nil e)
    · right
      have hmemf := firstUnder_mem hf
      obtain ⟨hmem, hcand⟩ := List.mem_filter.mp hmemf
      refine ⟨e, hmem, by simp [getPrevNextID, hf],
        (isPrevCandidate_iff db b e).mp hcand, ?_⟩
      intro e2 he2 hcand2
      exact firstUnder_min (prevLt_irrefl b.order)
        (prevLt_trans b.order) (prevLt_neg b.order) hf e2
        (List.mem_filter.mpr ⟨he2, (isPrevCandidate_iff db b e2).mpr hcand2⟩)
  · rcases hf : firstUnder (nextLt b.order)
        (db.entries.filter (nextCandidate db b)) with _ | e
    · left
      have hempty : db.entries.filter (nextCandidate db b) = [] := by
        rcases hl : db.entries.filter (nextCandidate db b) with _ | ⟨z, zs⟩
        · rfl
        · rw [hl] at hf
          exact absurd hf (firstUnder_ne_none z zs)
      constructor
      · simp [getPrevNextID, hf]
      · intro e he hcand
        have : e ∈ db.entries.filter (nextCandidate db b) :=
          List.mem_filter.mpr ⟨he, (isNextCandidate_iff db b e).mpr hcand⟩
        rw [hempty] at this
        exact absurd this (List.not_mem_nil e)
    · right
      have hmemf := firstUnder_mem hf
      obtain ⟨hmem, hcand⟩ := List.mem_filter.mp hmemf
      refine ⟨e, hmem, by simp [getPrevNextID, hf],
        (isNextCandidate_iff db b e).mp hcand, ?_⟩
      intro e2 he2 hcand2
      exact firstUnder_min (nextLt_irrefl b.order)
        (nextLt_trans b.order) (nextLt_neg b.order) hf e2
        (List.mem_filter.mpr ⟨he2, (isNextCandidate_iff db b e2).mpr hcand2⟩)

/-- Follows the claim's words for the "previous" neighbor ordering —
"descending by (orderingField, createdAt, id)", i.e. descending on all
three keys, the id included: `a` sorts strictly before `b`. -/
def claimPrevOrderLt (order : String) (a b : Entry) : Bool :=
  decide (orderVal order b < orderVal order a) ||
    (orderVal order a == orderVal order b &&
      (decide (b.createdAt < a.createdAt) ||
        (a.createdAt == b.createdAt && decide (b.id < a.id))))

/-- The "previous" id the claim's ordering description would select from
the same candidate rows. -/
def claimPrevID (db : DB) (b : EntryPaginationBuilder) : Int :=
  match firstUnder (claimPrevOrderLt b.order)
      (db.entries.filter (prevCandidate db b)) with
  | none => 0
  | some e => e.id

/-- Anchor row (id 1) with ordering value 10. -/
def tieAnchorRow : Entry :=
  { entry0 with id := 1, userID := 1, feedID := 1, publishedAt := 10 }

/-- Tied candidate with id 2 (same ordering value and creation time). -/
def tieRow2 : Entry :=
  { entry0 with id := 2, userID := 1, feedID := 1, publishedAt := 10 }

/-- Tied candidate with id 3 (same ordering value and creation time). -/
def tieRow3 : Entry :=
  { entry0 with id := 3, userID := 1, feedID := 1, publishedAt := 10 }

/-- Feed 1 of user 1 in category 1, globally visible. -/
def feed1 : Feed := { id := 1, userID := 1, categoryID := 1, hideGlobally := false }

/-- Category 1 of user 1, globally visible. -/
def category1 : Category := { id := 1, userID := 1, hideGlobally := false }

/-- Database with the anchor and two tied candidate rows. -/
def dbTie : DB :=
  { entries := [tieAnchorRow, tieRow2, tieRow3], feeds := [feed1],
    categories := [category1], nextEntryID := 4 }

/-- Pagination builder with no extra conditions anchored at entry 1. -/
def bTie : EntryPaginationBuilder :=
  { conditions := [], entryID := 1, order := "published_at", direction := "asc" }

/-- C7 counterexample: rows 2 and 3 both tie with the anchor's ordering
value (the equal-value-with-greater-id branch).  The code's previous
query orders `id ASC` among ties and returns id 2, whereas a descending
order on (orderingField, createdAt, id) — as the claim states — would
put id 3 first. -/
theorem getPrevNextID_id_order_counterexample :
    (getPrevNextID dbTie bTie).1 = 2 ∧ claimPrevID dbTie bTie = 3 := by
  decide

/-! ## C6 -/

/-- C6: with exactly three rows satisfying the builder's predicates whose
ordering values ascend strictly (`e1 < e2 < e3`, distinct nonzero ids),
the navigator anchored at `e2` returns `(prev = e1, next = e3)`, anchored
at `e1` returns `(prev = absent, next = e2)`, and anchored at `e3`
returns `(prev = e2, next = absent)`; an absent neighbor is the empty
result `none`, not an error.  With descending direction the same computed
pair is returned swapped. -/
theorem pagination_neighbors (conds : List PagCond) (ord dir : String)
    (db : DB) (e1 e2 e3 : Entry)
    (hdb : db.entries = [e1, e2, e3])
    (hp1 : rowPasses db conds e1 = true)
    (hp2 : rowPasses db conds e2 = true)
    (hp3 : rowPasses db conds e3 = true)
    (h12 : orderVal ord e1 < orderVal ord e2)
    (h23 : orderVal ord e2 < orderVal ord e3)
    (hid1 : e1.id ≠ 0) (hid2 : e2.id ≠ 0) (hid3 : e3.id ≠ 0)
    (hne12 : e1.id ≠ e2.id) (hne13 : e1.id ≠ e3.id) (hne23 : e2.id ≠ e3.id) :
    (EntryPaginationBuilder.Entries ⟨conds, e2.id, ord, dir⟩ db =
      if dir == "desc" then (some (e3.id, e3.title), some (e1.id, e1.title))
      else (some (e1.id, e1.title), some (e3.id, e3.title))) ∧
    (EntryPaginationBuilder.Entries ⟨conds, e1.id, ord, dir⟩ db =
      if dir == "desc" then (some (e2.id, e2.title), none)
      else (none, some (e2.id, e2.title))) ∧
    (EntryPaginationBuilder.Entries ⟨conds, e3.id, ord, dir⟩ db =
      if dir == "desc" then (none, some (e2.id, e2.title))
      else (some (e2.id, e2.title), none)) := by
  have h13 : orderVal ord e1 < orderVal ord e3 := lt_trans h12 h23
  have b12 : (e1.id == e2.id) = false := by simp [hne12]
  have b13 : (e1.id == e3.id) = false := by simp [hne13]
  have b23 : (e2.id == e3.id) = false := by simp [hne23]
  have z1 : (e1.id == (0 : Int)) = false := by simp [hid1]
  have z2 : (e2.id == (0 : Int)) = false := by simp [hid2]
  have z3 : (e3.id == (0 : Int)) = false := by simp [hid3]
  have hfind1 : db.entries.find? (fun e => e.id == e1.id) = some e1 := by
    rw [hdb]
    simp [List.find?]
  have hfind2 : db.entries.find? (fun e => e.id == e2.id) = some e2 := by
    rw [hdb]
    simp [List.find?, b12]
  have hfind3 : db.entries.find? (fun e => e.id == e3.id) = some e3 := by
    rw [hdb]
    simp [List.find?, b13, b23]
  have hav1 : anchorValue db ord e1.id = some (orderVal ord e1) := by
    simp [anchorValue, hfind1]
  have hav2 : anchorValue db ord e2.id = some (orderVal ord e2) := by
    simp [anchorValue, hfind2]
  have hav3 : anchorValue db ord e3.id = some (orderVal ord e3) := by
    simp [anchorValue, hfind3]
  have hget1 : getEntry db e1.id = some (e1.id, e1.title) := by
    simp [getEntry, hfind1]
  have hget2 : getEntry db e2.id = some (e2.id, e2.title) := by
    simp [getEntry, hfind2]
  have hget3 : getEntry db e3.id = some (e3.id, e3.title) := by
    simp [getEntry, hfind3]
  have hget0 : getEntry db 0 = none := by
    rw [getEntry, hdb]
    simp [List.find?, z1, z2, z3]
  refine ⟨?_, ?_, ?_⟩
  · -- anchored at e2
    have hc1 : prevCandidate db ⟨conds, e2.id, ord, dir⟩ e1 = true := by
      simp [prevCandidate, hav2, hp1, h12]
    have hc2 : prevCandidate db ⟨conds, e2.id, ord, dir⟩ e2 = false := by
      simp [prevCandidate, hav2, hp2]
    have hc3 : prevCandidate db ⟨conds, e2.id, ord, dir⟩ e3 = false := by
      simp [prevCandidate, hav2, hp3, not_lt.mpr (le_of_lt h23), ne_of_gt h23]
    have hn1 : nextCandidate db ⟨conds, e2.id, ord, dir⟩ e1 = false := by
      simp [nextCandidate, hav2, hp1, not_lt.mpr (le_of_lt h12), ne_of_lt h12]
    have hn2 : nextCandidate db ⟨conds, e2.id, ord, dir⟩ e2 = false := by
      simp [nextCandidate, hav2, hp2]
    have hn3 : nextCandidate db ⟨conds, e2.id, ord, dir⟩ e3 = true := by
      simp [nextCandidate, hav2, hp3, h23]
    have hpf : db.entries.filter (prevCandidate db ⟨conds, e2.id, ord, dir⟩) = [e1] := by
      rw [hdb]
      simp [List.filter, hc1, hc2, hc3]
    have hnf : db.entries.filter (nextCandidate db ⟨conds, e2.id, ord, dir⟩) = [e3] := by
      rw [hdb]
      simp [List.filter, hn1, hn2, hn3]
    have hgp : getPrevNextID db ⟨conds, e2.id, ord, dir⟩ = (e1.id, e3.id) := by
      simp [getPrevNextID, hpf, hnf, firstUnder]
    simp [EntryPaginationBuilder.Entries, hgp, hget1, hget3]
  · -- anchored at e1
    have hc1 : prevCandidate db ⟨conds, e1.id, ord, dir⟩ e1 = false := by
      simp [prevCandidate, hav1, hp1]
    have hc2 : prevCandidate db ⟨conds, e1.id, ord, dir⟩ e2 = false := by
      simp [prevCandidate, hav1, hp2, not_lt.mpr (le_of_lt h12), ne_of_gt h12]
    have hc3 : prevCandidate db ⟨conds, e1.id, ord, dir⟩ e3 = false := by
      simp [prevCandidate, hav1, hp3, not_lt.mpr (le_of_lt h13), ne_of_gt h13]
    have hn1 : nextCandidate db ⟨conds, e1.id, ord, dir⟩ e1 = false := by
      simp [nextCandidate, hav1, hp1]
    have hn2 : nextCandidate db ⟨conds, e1.id, ord, dir⟩ e2 = true := by
      simp [nextCandidate, hav1, hp2, h12]
    have hn3 : nextCandidate db ⟨conds, e1.id, ord, dir⟩ e3 = true := by
      simp [nextCandidate, hav1, hp3, h13]
    have hpf : db.entries.filter (prevCandidate db ⟨conds, e1.id, ord, dir⟩) = [] := by
      rw [hdb]
      simp [List.filter, hc1, hc2, hc3]
    have hnf : db.entries.filter (nextCandidate db ⟨conds, e1.id, ord, dir⟩) = [e2, e3] := by
      rw [hdb]
      simp [List.filter, hn1, hn2, hn3]
    have htie : nextLt ord e3 e2 = false := by
      simp [nextLt, not_lt.mpr (le_of_lt h23), ne_of_gt h23]
    have hgp : getPrevNextID db ⟨conds, e1.id, ord, dir⟩ = (0, e2.id) := by
      simp [getPrevNextID, hpf, hnf, firstUnder, htie]
    simp [EntryPaginationBuilder.Entries, hgp, hget0, hget2]
  · -- anchored at e3
    have hc1 : prevCandidate db ⟨conds, e3.id, ord, dir⟩ e1 = true := by
      simp [prevCandidate, hav3, hp1, h13]
    have hc2 : prevCandidate db ⟨conds, e3.id, ord, dir⟩ e2 = true := by
      simp [prevCandidate, hav3, hp2, h23]
    have hc3 : prevCandidate db ⟨conds, e3.id, ord, dir⟩ e3 = false := by
      simp [prevCandidate, hav3, hp3]
    have hn1 : nextCandidate db ⟨conds, e3.id, ord, dir⟩ e1 = false := by
      simp [nextCandidate, hav3, hp1, not_lt.mpr (le_of_lt h13), ne_of_lt h13]
    have hn2 : nextCandidate db ⟨conds, e3.id, ord, dir⟩ e2 = false := by
      simp [nextCandidate, hav3, hp2, not_lt.mpr (le_of_lt h23), ne_of_lt h23]
    have hn3 : nextCandidate db ⟨conds, e3.id, ord, dir⟩ e3 = false := by
      simp [nextCandidate, hav3, hp3]
    have hpf : db.entries.filter (prevCandidate db ⟨conds, e3.id, ord, dir⟩) = [e1, e2] := by
      rw [hdb]
      simp [List.filter, hc1, hc2, hc3]
    have hnf : db.entries.filter (nextCandidate db ⟨conds, e3.id, ord, dir⟩) = [] := by
      rw [hdb]
      simp [List.filter, hn1, hn2, hn3]
    have htie : prevLt ord e2 e1 = true := by
      simp [prevLt, h12]
    have hgp : getPrevNextID db ⟨conds, e3.id, ord, dir⟩ = (e2.id, 0) := by
      simp [getPrevNextID, hpf, hnf, firstUnder, htie]
    simp [EntryPaginationBuilder.Entries, hgp, hget0, hget2]

/-- Globally visible unread row 1 of user 1, published at 10. -/
def pagRow1 : Entry :=
  { entry0 with id := 1, userID := 1, feedID := 1, title := "one", publishedAt := 10 }

/-- Globally visible unread row 2 of user 1, published at 20. -/
def pagRow2 : Entry :=
  { entry0 with id := 2, userID := 1, feedID := 1, title := "two", publishedAt := 20 }

/-- Globally visible unread row 3 of user 1, published at 30. -/
def pagRow3 : Entry :=
  { entry0 with id := 3, userID := 1, feedID := 1, title := "three", publishedAt := 30 }

/-- Database with the three pagination rows and their feed/category. -/
def dbPag : DB :=
  { entries := [pagRow1, pagRow2, pagRow3], feeds := [feed1],
    categories := [category1], nextEntryID := 4 }

/-- C6 witness: the neighbors theorem applied to the concrete three-row
database with the constructor's conditions, `published_at` ordering and
ascending direction. -/
theorem pagination_neighbors_witness :
    (EntryPaginationBuilder.Entries
        ⟨[PagCond.userEq 1, PagCond.statusNe EntryStatusRemoved],
          pagRow2.id, "published_at", "asc"⟩ dbPag =
      if "asc" == "desc" then
        (some (pagRow3.id, pagRow3.title), some (pagRow1.id, pagRow1.title))
      else (some (pagRow1.id, pagRow1.title), some (pagRow3.id, pagRow3.title))) ∧
    (EntryPaginationBuilder.Entries
        ⟨[PagCond.userEq 1, PagCond.statusNe EntryStatusRemoved],
          pagRow1.id, "published_at", "asc"⟩ dbPag =
      if "asc" == "desc" then (some (pagRow2.id, pagRow2.title), none)
      else (none, some (pagRow2.id, pagRow2.title))) ∧
    (EntryPaginationBuilder.Entries
        ⟨[PagCond.userEq 1, PagCond.statusNe EntryStatusRemoved],
          pagRow3.id, "published_at", "asc"⟩ dbPag =
      if "asc" == "desc" then (none, some (pagRow2.id, pagRow2.title))
      else (some (pagRow2.id, pagRow2.title), none)) :=
  pagination_neighbors [PagCond.userEq 1, PagCond.statusNe EntryStatusRemoved]
    "published_at" "asc" dbPag pagRow1 pagRow2 pagRow3 rfl
    (by decide) (by decide) (by decide) (by decide) (by decide)
    (by decide) (by decide) (by decide) (by decide) (by decide) (by decide)

end Miniflux
